import Mathlib

/-!
# Verification of the x-scraper tweet-processing core

A shallow embedding of the x-scraper worker (src/worker.ts, src/services/aiService.ts,
src/services/discordService.ts, src/index.ts, src/models/Post.ts) and proofs about it.

External collaborators (the Gemini classification call, the image download, the
DexScreener lookup, wall-clock durations) are passed in as oracle values, so every
definition is executable and each run of the model corresponds to one concrete
scheduling/outcome of the real program.  The document store (MongoDB collections
`Post` and `TweetsIA`, the notification webhooks, the AI-call clock) is a `Store`
value threaded through the operations.
-/

/-- Processing status of a `Post` document (`status` field, default "unprocessed"). -/
inductive Status
  | unprocessed
  | processed
  | discarded
deriving DecidableEq, Repr

/-- Discord channel selected by `sendToDiscord` (the errors channel is out of the
pipeline's routing and not modelled). -/
inductive Channel
  | general
  | alerts
deriving DecidableEq, Repr

/-- A detected contract reference `{address, blockchain?}` from the classifier. -/
structure Contract where
  address : String
  blockchain : Option String
deriving DecidableEq, Repr

/-- Result shape of `classifyTweet`: `{category, tags, contracts}`. -/
structure Analysis where
  category : String
  tags : List String
  contracts : List Contract
deriving DecidableEq, Repr

/-- An error thrown by the AI provider; `status` models JS `err?.status`. -/
structure AIError where
  status : Option Nat
deriving DecidableEq, Repr

/-- A raw candidate record extracted by one of the scanners (interface `Tweet`). -/
structure Tweet where
  url : String
  username : String
  text : String
  timestamp : Option Nat
  mediaUrl : Option String
  scrapedFor : Option String
deriving DecidableEq, Repr

/-- A persisted `Post` document (first-stage raw capture). -/
structure RawPost where
  tweetId : String
  username : String
  text : String
  timestamp : Nat
  mediaUrl : Option String
  status : Status
  scrapedFor : String
deriving DecidableEq, Repr

/-- Best-liquidity pair data returned by the DexScreener lookup, with `priceUsd`
already parsed to a rational (abstracting JS `parseFloat`). -/
structure TokenData where
  baseTokenSymbol : String
  priceUsd : Option ℚ
  fdv : Option ℚ
  liquidityUsd : Option ℚ
  volumeH24 : ℚ
deriving DecidableEq, Repr

/-- The `EnrichedData` record built per detected contract. -/
structure EnrichedData where
  address : String
  tokenSymbol : Option String
  priceUsd : Option ℚ
  fdv : Option ℚ
  liquidity : Option ℚ
  volume24h : Option ℚ
  blockchain : Option String
deriving DecidableEq, Repr

/-- A persisted `TweetsIA` document (second-stage classified record), which is also
the `dtoTweetIA` shape sent to Discord. -/
structure ClassifiedPost where
  tweetId : String
  username : String
  text : String
  timestamp : Nat
  category : String
  tags : List String
  contracts : List Contract
  enriched : List EnrichedData
  mediaUrl : Option String
deriving DecidableEq, Repr

/-- The document store plus the process-global AI scheduling state
(`lastAICallTime`) and a wall-clock trace of classification-call start times. -/
structure Store where
  posts : List RawPost
  tweetsIA : List ClassifiedPost
  notifications : List (Channel × ClassifiedPost)
  clock : Nat
  lastAICallTime : Nat
  aiCallLog : List Nat
deriving DecidableEq, Repr

/-- External outcomes for one post's processing: the image download result
(`urlToBase64`, empty string on failure), the outcome of the provider call
`ai.models.generateContent`, whether the `withTimeout` fallback fired, the
DexScreener lookup, and the wall-clock time the classification step consumes. -/
structure Oracles where
  download : String → String
  aiCall : Except AIError Analysis
  timedOut : Bool
  dex : String → Option TokenData
  elapsed : Nat

/-- The aiService fallback value `{category: "not-relevant", tags: [], contracts: []}`. -/
def notRelevantA : Analysis := { category := "not-relevant", tags := [], contracts := [] }

/-- The `withTimeout` sentinel `{category: "error", tags: [], contracts: []}`. -/
def errorA : Analysis := { category := "error", tags := [], contracts := [] }

/-- Worker constant `AI_CALL_INTERVAL = 6000` (6 seconds). -/
def AI_CALL_INTERVAL : Nat := 6000

/-- The alert-case labels of the `switch (analysis.category)` in worker.ts. -/
def alertCategories : List String :=
  ["Airdrop", "Launch Alerts", "Presale", "Contract Alert", "Listing",
   "Price Alert", "Scam Warning", "Giveaway", "Signals", "PnL Sharing"]

/-- Model of `classifyTweet` (aiService.ts): pushes the prompt part, optionally a media part
(only when `mediaUrl && mimeType` are truthy and the download yields a non-empty
base64 string), guards on empty text with no media part, and otherwise performs the
provider call — catching any provider/parse error into the `not-relevant` fallback.
Returns the analysis together with whether the provider was actually invoked. -/
def classifyTweet (text : String) (mediaUrl mimeType : Option String)
    (download : String → String) (aiCall : Except AIError Analysis) : Analysis × Bool :=
  let mediaPart : Bool :=
    match mediaUrl, mimeType with
    | some u, some m => decide (u ≠ "") && decide (m ≠ "") && decide (download u ≠ "")
    | _, _ => false
  if text = "" ∧ mediaPart = false then (notRelevantA, false)
  else
    match aiCall with
    | .ok a => (a, true)
    | .error _ => (notRelevantA, true)

/-- Model of `retryWithBackoff` (worker.ts): retry only on `err?.status === 503`, up to
`retries` extra attempts; any other error is rethrown.  `fn` maps the attempt
index to that attempt's outcome; the result carries the number of attempts used. -/
def retryWithBackoff (fn : Nat → Except AIError Analysis) :
    Nat → Nat → Except AIError Analysis × Nat
  | 0, k =>
    match fn k with
    | .ok a => (.ok a, k + 1)
    | .error e => (.error e, k + 1)
  | r + 1, k =>
    match fn k with
    | .ok a => (.ok a, k + 1)
    | .error e =>
      if e.status = some 503 then retryWithBackoff fn r (k + 1)
      else (.error e, k + 1)

/-- Model of `withTimeout` (worker.ts): `Promise.race` of the wrapped call against a timer
that resolves with `fallback`; a rejection of the wrapped call before the timer
fires propagates. -/
def withTimeout (timedOut : Bool) (p : Except AIError Analysis) (fallback : Analysis) :
    Except AIError Analysis :=
  if timedOut then .ok fallback else p

/-- The enrichment loop: for every detected contract, look up DexScreener and, when
a pair is found, build the `EnrichedData` record; failed/empty lookups are skipped. -/
def enrich (contracts : List Contract) (dex : String → Option TokenData) :
    List EnrichedData :=
  contracts.filterMap fun c =>
    (dex c.address).map fun td =>
      { address := c.address
        tokenSymbol := some td.baseTokenSymbol
        priceUsd := td.priceUsd
        fdv := td.fdv
        liquidity := td.liquidityUsd
        volume24h := some td.volumeH24
        blockchain := c.blockchain }

/-- Model of `findOneAndUpdate({tweetId}, {status})`: set the status of the post with the
given id. -/
def setStatus (ps : List RawPost) (id : String) (st : Status) : List RawPost :=
  ps.map fun p => if p.tweetId = id then { p with status := st } else p

/-- Model of `sendToDiscord(channel, dto)`: record a delivery. -/
def notify (s : Store) (c : Channel) (dto : ClassifiedPost) : Store :=
  { s with notifications := s.notifications ++ [(c, dto)] }

/-- Model of `new TweetsIA(dto); tweetIA.save(); Post.findOneAndUpdate(status processed)`:
the save throws on the unique `tweetId` index when a record already exists, and that
error is caught, also skipping the status update in the same `try`. -/
def saveIA (s : Store) (id : String) (dto : ClassifiedPost) : Store :=
  if ∃ q ∈ s.tweetsIA, q.tweetId = id then s
  else { s with tweetsIA := s.tweetsIA ++ [dto],
                posts := setStatus s.posts id .processed }

/-- The `not-relevant` pre-check plus the `switch (analysis.category)` of worker.ts
(shared verbatim between `processTweet` and `retryFailedAI`): `not-relevant` marks
the post discarded and returns early (flag `true`); alert categories deliver to the
alerts channel; every other category falls to the default case and is delivered to
the general channel; then the classified record is saved and the post marked
processed.  The switch's own `NotRelevant` case is unreachable behind the pre-check. -/
def routeAndSave (category : String) (id : String) (dto : ClassifiedPost) (s : Store) :
    Store × Bool :=
  if category = "not-relevant" then
    ({ s with posts := setStatus s.posts id .discarded }, true)
  else if category ∈ alertCategories then
    (saveIA (notify s .alerts dto) id dto, false)
  else
    (saveIA (notify s .general dto) id dto, false)

/-- Model of `new Post({...})`: the raw document inserted by `processTweet`, with
`timestamp` defaulting to `Date.now()` and `scrapedFor` defaulting to `'feed'`. -/
def mkRawPost (t : Tweet) (now : Nat) : RawPost :=
  { tweetId := t.url
    username := t.username
    text := t.text
    timestamp := t.timestamp.getD now
    mediaUrl := t.mediaUrl
    status := .unprocessed
    scrapedFor := t.scrapedFor.getD "feed" }

/-- The `dtoTweetIA` built by `processTweet`. -/
def mkDto (t : Tweet) (a : Analysis) (enr : List EnrichedData) (now : Nat) :
    ClassifiedPost :=
  { tweetId := t.url
    username := t.username
    text := t.text
    timestamp := t.timestamp.getD now
    category := a.category
    tags := a.tags
    contracts := a.contracts
    enriched := enr
    mediaUrl := t.mediaUrl }

/-- The `dtoTweetIA` built by `retryFailedAI` from the stored raw post. -/
def mkDtoFromPost (p : RawPost) (a : Analysis) (enr : List EnrichedData) :
    ClassifiedPost :=
  { tweetId := p.tweetId
    username := p.username
    text := p.text
    timestamp := p.timestamp
    category := a.category
    tags := a.tags
    contracts := a.contracts
    enriched := enr
    mediaUrl := p.mediaUrl }

/-- Step 5 of the pipeline: enrichment plus branch-on-outcome.  A category other
than the sentinel `error` routes and saves; the sentinel marks the raw post back to
`unprocessed`. -/
def branchOnOutcome (t : Tweet) (a : Analysis) (o : Oracles) (s : Store) : Store :=
  if a.category ≠ "error" then
    (routeAndSave a.category t.url (mkDto t a (enrich a.contracts o.dex) s.clock) s).1
  else
    { s with posts := setStatus s.posts t.url .unprocessed }

/-- Model of `processTweet` (worker.ts): idempotency gate on `Post.findOne({tweetId})`, raw
insert, the global rate gate (sleep until `lastAICallTime + AI_CALL_INTERVAL`, then
record the new call time), the limiter/timeout/backoff-wrapped classification, and
the branch on the outcome.  A rejection of the wrapped classification would be
swallowed by the top-level `catch` (leaving only the inserted raw post). -/
def processTweet (t : Tweet) (o : Oracles) (s : Store) : Store :=
  if ∃ p ∈ s.posts, p.tweetId = t.url then s
  else
    let post := mkRawPost t s.clock
    let s1 : Store := { s with posts := s.posts ++ [post] }
    let callTime := max s1.clock (s1.lastAICallTime + AI_CALL_INTERVAL)
    let ar := classifyTweet post.text post.mediaUrl (some "image/jpeg") o.download o.aiCall
    let s2 : Store :=
      { s1 with clock := callTime + o.elapsed
                lastAICallTime := callTime
                aiCallLog := if ar.2 then s1.aiCallLog ++ [callTime] else s1.aiCallLog }
    let res := withTimeout o.timedOut (retryWithBackoff (fun _ => .ok ar.1) 3 0).1 errorA
    match res with
    | .error _ => s2
    | .ok a => branchOnOutcome t a o s2

/-- The batch loop of `retryFailedAI`: each pending post is re-classified through
`withTimeout(classifyTweet, 15s)` — with no limiter and no rate gate and no status
fetch refresh — and branched on; the `not-relevant` branch `return`s from the whole
function, and a sentinel `error` outcome leaves the post untouched and continues. -/
def retryPostBatch (os : Nat → Oracles) : List RawPost → Nat → Store → Store
  | [], _, s => s
  | p :: rest, k, s =>
    let o := os k
    let ar := classifyTweet p.text p.mediaUrl (some "image/jpeg") o.download o.aiCall
    let s1 : Store :=
      { s with clock := s.clock + o.elapsed
               aiCallLog := if ar.2 then s.aiCallLog ++ [s.clock] else s.aiCallLog }
    let a := if o.timedOut then errorA else ar.1
    if a.category ≠ "error" then
      let rs := routeAndSave a.category p.tweetId
        (mkDtoFromPost p a (enrich a.contracts o.dex)) s1
      if rs.2 then rs.1 else retryPostBatch os rest (k + 1) rs.1
    else
      retryPostBatch os rest (k + 1) s1

/-- Model of `Post.find({ status: "unprocessed" }).limit(limit)`. -/
def sweepBatch (s : Store) (limit : Nat) : List RawPost :=
  (s.posts.filter fun p => p.status = .unprocessed).take limit

/-- Model of `retryFailedAI` (worker.ts): fetch the bounded unprocessed batch and loop. -/
def retryFailedAI (limit : Nat) (os : Nat → Oracles) (s : Store) : Store :=
  retryPostBatch os (sweepBatch s limit) 0 s

/-- The operations that write `Post.status`. -/
inductive Op
  | proc (t : Tweet) (o : Oracles)
  | sweep (limit : Nat) (os : Nat → Oracles)

/-- One step of the worker against the store. -/
def stepOp : Op → Store → Store
  | .proc t o, s => processTweet t o s
  | .sweep limit os, s => retryFailedAI limit os s

/-- Status of the (first) post with the given id. -/
def statusIn (ps : List RawPost) (id : String) : Option Status :=
  (ps.find? fun p => decide (p.tweetId = id)).map (·.status)

/-- Number of raw posts carrying the given id. -/
def idCount (ps : List RawPost) (id : String) : Nat :=
  ps.countP fun p => decide (p.tweetId = id)

/-- Number of classified records carrying the given id. -/
def iaCount (qs : List ClassifiedPost) (id : String) : Nat :=
  qs.countP fun q => decide (q.tweetId = id)

/-- Sequential pipeline invocations (the feed scanner and deep-scanner loops both
`await processTweet` one candidate at a time). -/
def runPipeline : List (Tweet × Oracles) → Store → Store
  | [], s => s
  | (t, o) :: rest, s => runPipeline rest (processTweet t o s)

/-- Consecutive entries of a call-time trace are at least `gap` apart. -/
def spacedBy (gap : Nat) (l : List Nat) : Prop :=
  List.Chain' (fun a b => a + gap ≤ b) l

/-! ## Helper lemmas about the store operations -/

theorem notify_posts (s : Store) (c : Channel) (dto : ClassifiedPost) :
    (notify s c dto).posts = s.posts := rfl

theorem notify_tweetsIA (s : Store) (c : Channel) (dto : ClassifiedPost) :
    (notify s c dto).tweetsIA = s.tweetsIA := rfl

theorem notify_clock (s : Store) (c : Channel) (dto : ClassifiedPost) :
    (notify s c dto).clock = s.clock := rfl

theorem notify_lastAICallTime (s : Store) (c : Channel) (dto : ClassifiedPost) :
    (notify s c dto).lastAICallTime = s.lastAICallTime := rfl

theorem notify_aiCallLog (s : Store) (c : Channel) (dto : ClassifiedPost) :
    (notify s c dto).aiCallLog = s.aiCallLog := rfl

theorem saveIA_clock (s : Store) (id : String) (dto : ClassifiedPost) :
    (saveIA s id dto).clock = s.clock := by
  unfold saveIA; split <;> rfl

theorem saveIA_lastAICallTime (s : Store) (id : String) (dto : ClassifiedPost) :
    (saveIA s id dto).lastAICallTime = s.lastAICallTime := by
  unfold saveIA; split <;> rfl

theorem saveIA_aiCallLog (s : Store) (id : String) (dto : ClassifiedPost) :
    (saveIA s id dto).aiCallLog = s.aiCallLog := by
  unfold saveIA; split <;> rfl

theorem saveIA_notifications (s : Store) (id : String) (dto : ClassifiedPost) :
    (saveIA s id dto).notifications = s.notifications := by
  unfold saveIA; split <;> rfl

theorem routeAndSave_clock (c id : String) (dto : ClassifiedPost) (s : Store) :
    ((routeAndSave c id dto s).1).clock = s.clock := by
  unfold routeAndSave
  split
  · rfl
  split <;> simp [saveIA_clock, notify_clock]

theorem routeAndSave_lastAICallTime (c id : String) (dto : ClassifiedPost) (s : Store) :
    ((routeAndSave c id dto s).1).lastAICallTime = s.lastAICallTime := by
  unfold routeAndSave
  split
  · rfl
  split <;> simp [saveIA_lastAICallTime, notify_lastAICallTime]

theorem routeAndSave_aiCallLog (c id : String) (dto : ClassifiedPost) (s : Store) :
    ((routeAndSave c id dto s).1).aiCallLog = s.aiCallLog := by
  unfold routeAndSave
  split
  · rfl
  split <;> simp [saveIA_aiCallLog, notify_aiCallLog]

theorem branchOnOutcome_aiCallLog (t : Tweet) (a : Analysis) (o : Oracles) (s : Store) :
    (branchOnOutcome t a o s).aiCallLog = s.aiCallLog := by
  unfold branchOnOutcome
  split
  · exact routeAndSave_aiCallLog _ _ _ _
  · rfl

theorem branchOnOutcome_lastAICallTime (t : Tweet) (a : Analysis) (o : Oracles) (s : Store) :
    (branchOnOutcome t a o s).lastAICallTime = s.lastAICallTime := by
  unfold branchOnOutcome
  split
  · exact routeAndSave_lastAICallTime _ _ _ _
  · rfl

theorem idCount_setStatus (ps : List RawPost) (id x : String) (st : Status) :
    idCount (setStatus ps id st) x = idCount ps x := by
  unfold idCount setStatus
  rw [List.countP_map]
  congr 1
  funext p
  by_cases h : p.tweetId = id <;> simp [h, Function.comp]

theorem idCount_append (ps qs : List RawPost) (x : String) :
    idCount (ps ++ qs) x = idCount ps x + idCount qs x :=
  List.countP_append _ _ _

theorem iaCount_append (ps qs : List ClassifiedPost) (x : String) :
    iaCount (ps ++ qs) x = iaCount ps x + iaCount qs x :=
  List.countP_append _ _ _

theorem idCount_saveIA (s : Store) (id : String) (dto : ClassifiedPost) (x : String) :
    idCount (saveIA s id dto).posts x = idCount s.posts x := by
  unfold saveIA
  split
  · rfl
  · simp [idCount_setStatus]

theorem idCount_routeAndSave (c id : String) (dto : ClassifiedPost) (s : Store) (x : String) :
    idCount ((routeAndSave c id dto s).1).posts x = idCount s.posts x := by
  unfold routeAndSave
  split
  · simp [idCount_setStatus]
  split <;> simp [idCount_saveIA, notify_posts]

theorem idCount_branchOnOutcome (t : Tweet) (a : Analysis) (o : Oracles) (s : Store)
    (x : String) :
    idCount (branchOnOutcome t a o s).posts x = idCount s.posts x := by
  unfold branchOnOutcome
  split
  · exact idCount_routeAndSave _ _ _ _ _
  · simp [idCount_setStatus]

theorem iaCount_saveIA (s : Store) (id : String) (dto : ClassifiedPost) (x : String) :
    iaCount (saveIA s id dto).tweetsIA x ≤ iaCount s.tweetsIA x + 1 := by
  unfold saveIA
  split
  · omega
  · simp only [iaCount_append]
    have : iaCount [dto] x ≤ 1 := by
      unfold iaCount
      simp [List.countP_cons]
      split <;> omega
    omega

theorem iaCount_routeAndSave (c id : String) (dto : ClassifiedPost) (s : Store) (x : String) :
    iaCount ((routeAndSave c id dto s).1).tweetsIA x ≤ iaCount s.tweetsIA x + 1 := by
  unfold routeAndSave
  split
  · simp
  split
  · simpa [notify_tweetsIA] using iaCount_saveIA (notify s .alerts dto) id dto x
  · simpa [notify_tweetsIA] using iaCount_saveIA (notify s .general dto) id dto x

theorem iaCount_branchOnOutcome (t : Tweet) (a : Analysis) (o : Oracles) (s : Store)
    (x : String) :
    iaCount (branchOnOutcome t a o s).tweetsIA x ≤ iaCount s.tweetsIA x + 1 := by
  unfold branchOnOutcome
  split
  · exact iaCount_routeAndSave _ _ _ _ _
  · simp

/-! ## Pipeline idempotency lemmas -/

theorem processTweet_noop (t : Tweet) (o : Oracles) (s : Store)
    (h : ∃ p ∈ s.posts, p.tweetId = t.url) : processTweet t o s = s := by
  unfold processTweet
  rw [if_pos h]

theorem processTweet_fresh_idCount (t : Tweet) (o : Oracles) (s : Store)
    (h : ¬ ∃ p ∈ s.posts, p.tweetId = t.url) :
    idCount (processTweet t o s).posts t.url = idCount s.posts t.url + 1 := by
  unfold processTweet
  rw [if_neg h]
  dsimp only
  split
  · simp [idCount_append, idCount, mkRawPost]
  · rw [idCount_branchOnOutcome]
    simp [idCount_append, idCount, mkRawPost]

theorem processTweet_mem (t : Tweet) (o : Oracles) (s : Store)
    (h : ¬ ∃ p ∈ s.posts, p.tweetId = t.url) :
    ∃ p ∈ (processTweet t o s).posts, p.tweetId = t.url := by
  have hc := processTweet_fresh_idCount t o s h
  have hpos : 0 < idCount (processTweet t o s).posts t.url := by omega
  have := List.countP_pos_iff.mp hpos
  simpa [idCount] using this

theorem processTweet_iaCount_le (t : Tweet) (o : Oracles) (s : Store) (x : String) :
    iaCount (processTweet t o s).tweetsIA x ≤ iaCount s.tweetsIA x + 1 := by
  unfold processTweet
  split
  · omega
  dsimp only
  split
  · simp [iaCount]
  · exact iaCount_branchOnOutcome _ _ _ _ _

/-! ## Concrete fixtures used by witnesses and counterexamples -/

/-- The empty initial store. -/
def emptyStore : Store :=
  { posts := [], tweetsIA := [], notifications := [], clock := 0,
    lastAICallTime := 0, aiCallLog := [] }

/-- A concrete feed candidate. -/
def exTweet : Tweet :=
  { url := "/user/status/1", username := "user", text := "check CA: 7xKXtgpump",
    timestamp := some 100, mediaUrl := none, scrapedFor := none }

/-- Oracle run where the classifier returns a Contract Alert. -/
def exOracle : Oracles :=
  { download := fun _ => ""
    aiCall := .ok { category := "Contract Alert", tags := ["pump"],
                    contracts := [{ address := "7xKXtgpump", blockchain := some "solana" }] }
    timedOut := false
    dex := fun _ => none
    elapsed := 0 }

/-- C1: invoking the tweet-processing pipeline twice with identical candidate data
for a fresh post identifier results in exactly one persisted RawPost and at most
one ClassifiedPost for it, and the second invocation is a no-op — the entire store
(raw posts, classified posts, notifications, AI-call trace) is returned unchanged,
because a RawPost with that identifier already exists. -/
theorem c1_pipeline_idempotent (t : Tweet) (o1 o2 : Oracles) (s : Store)
    (hraw : ¬ ∃ p ∈ s.posts, p.tweetId = t.url)
    (hia : ∀ q ∈ s.tweetsIA, q.tweetId ≠ t.url) :
    idCount (processTweet t o1 s).posts t.url = 1 ∧
    iaCount (processTweet t o1 s).tweetsIA t.url ≤ 1 ∧
    processTweet t o2 (processTweet t o1 s) = processTweet t o1 s := by
  have h0 : idCount s.posts t.url = 0 := by
    unfold idCount
    rw [List.countP_eq_zero]
    intro p hp
    simpa using fun hx => hraw ⟨p, hp, hx⟩
  refine ⟨?_, ?_, ?_⟩
  · rw [processTweet_fresh_idCount t o1 s hraw, h0]
  · have hle := processTweet_iaCount_le t o1 s t.url
    have hia0 : iaCount s.tweetsIA t.url = 0 := by
      unfold iaCount
      rw [List.countP_eq_zero]
      intro q hq
      simpa using hia q hq
    omega
  · exact processTweet_noop t o2 _ (processTweet_mem t o1 s hraw)

/-- C1 witness: the idempotency theorem applied at a concrete candidate. -/
theorem c1_pipeline_idempotent_witness :
    idCount (processTweet exTweet exOracle emptyStore).posts exTweet.url = 1 ∧
    iaCount (processTweet exTweet exOracle emptyStore).tweetsIA exTweet.url ≤ 1 ∧
    processTweet exTweet exOracle (processTweet exTweet exOracle emptyStore) =
      processTweet exTweet exOracle emptyStore :=
  c1_pipeline_idempotent exTweet exOracle exOracle emptyStore
    (by simp [emptyStore]) (by simp [emptyStore])

/-! ## The account rotation scheduler (index.ts `startWorker` cron job) -/

/-- One cron tick of the user-sequencer: an empty user list is a no-op; a cursor
pointing at an existing user runs `processUserAndMentions` for that user (whose
internal failures are caught, so its effect on the store — here an arbitrary
`deepScan` — never influences the cursor) and then advances the cursor by one
modulo the list length; an out-of-range cursor resets to 0 with no scan.
Returns ((new cursor, visited user), new store). -/
def schedulerTick (accounts : List String) (deepScan : String → Store → Store)
    (cursor : Nat) (s : Store) : (Nat × Option String) × Store :=
  if accounts.isEmpty then ((cursor, none), s)
  else
    match accounts.get? cursor with
    | some u => (((cursor + 1) % accounts.length, some u), deepScan u s)
    | none => ((0, none), s)

/-- The persisted cursor after `n` ticks (per-tick deep-scan effects and store
snapshots are arbitrary, since the tick's cursor update ignores both). -/
def cursorAfter (accounts : List String) (ds : Nat → String → Store → Store)
    (ss : Nat → Store) (c0 : Nat) : Nat → Nat
  | 0 => c0
  | n + 1 =>
    (schedulerTick accounts (ds n) (cursorAfter accounts ds ss c0 n) (ss n)).1.1

/-- The account visited by the `(n+1)`-th tick (0-indexed `n`). -/
def visitedAt (accounts : List String) (ds : Nat → String → Store → Store)
    (ss : Nat → Store) (c0 : Nat) (n : Nat) : Option String :=
  (schedulerTick accounts (ds n) (cursorAfter accounts ds ss c0 n) (ss n)).1.2

theorem schedulerTick_advance (accounts : List String) (ds : String → Store → Store)
    (s : Store) (c : Nat) (hc : c < accounts.length) :
    (schedulerTick accounts ds c s).1.1 = (c + 1) % accounts.length ∧
    (schedulerTick accounts ds c s).1.2 = some (accounts.get ⟨c, hc⟩) := by
  unfold schedulerTick
  have hne : accounts.isEmpty = false := by
    cases accounts
    · simp at hc
    · rfl
  rw [hne]
  simp [List.getElem?_eq_getElem hc, List.get_eq_getElem]

theorem cursorAfter_formula (accounts : List String) (ds : Nat → String → Store → Store)
    (ss : Nat → Store) (c0 : Nat) (hc : c0 < accounts.length) :
    ∀ n, cursorAfter accounts ds ss c0 n = (c0 + n) % accounts.length := by
  intro n
  induction n with
  | zero => simp [cursorAfter, Nat.mod_eq_of_lt hc]
  | succ n ih =>
    have hpos : 0 < accounts.length := Nat.lt_of_le_of_lt (Nat.zero_le _) hc
    have hlt : (c0 + n) % accounts.length < accounts.length := Nat.mod_lt _ hpos
    unfold cursorAfter
    rw [ih, (schedulerTick_advance accounts (ds n) (ss n) _ hlt).1, Nat.mod_add_mod,
      Nat.add_assoc]

theorem visitedAt_formula (accounts : List String) (ds : Nat → String → Store → Store)
    (ss : Nat → Store) (c0 : Nat) (hc : c0 < accounts.length) (n : Nat) :
    visitedAt accounts ds ss c0 n =
      some (accounts.get ⟨(c0 + n) % accounts.length,
        Nat.mod_lt _ (Nat.lt_of_le_of_lt (Nat.zero_le _) hc)⟩) := by
  have hpos : 0 < accounts.length := Nat.lt_of_le_of_lt (Nat.zero_le _) hc
  have hlt : (c0 + n) % accounts.length < accounts.length := Nat.mod_lt _ hpos
  unfold visitedAt
  rw [cursorAfter_formula accounts ds ss c0 hc n,
    (schedulerTick_advance accounts (ds n) (ss n) _ hlt).2]

/-- C5: with a tracked-account list of size N unchanged across ticks and an
in-range starting cursor, every tick advances the persisted cursor by exactly one
modulo N regardless of the deep-scan's effect; the cursor always stays in [0, N);
the first N ticks visit every account exactly once (the visited sequence is a
permutation of the account list); and the (N+1)-th tick revisits the account the
first tick visited. -/
theorem c5_scheduler_rotation (accounts : List String)
    (ds : Nat → String → Store → Store) (ss : Nat → Store) (c0 : Nat)
    (hc : c0 < accounts.length) :
    (∀ n, cursorAfter accounts ds ss c0 n < accounts.length) ∧
    (∀ n, cursorAfter accounts ds ss c0 (n + 1) =
      (cursorAfter accounts ds ss c0 n + 1) % accounts.length) ∧
    ((List.range accounts.length).map (visitedAt accounts ds ss c0)).Perm
      (accounts.map some) ∧
    visitedAt accounts ds ss c0 accounts.length = visitedAt accounts ds ss c0 0 := by
  have hpos : 0 < accounts.length := Nat.lt_of_le_of_lt (Nat.zero_le _) hc
  refine ⟨?_, ?_, ?_, ?_⟩
  · intro n
    rw [cursorAfter_formula accounts ds ss c0 hc n]
    exact Nat.mod_lt _ hpos
  · intro n
    rw [cursorAfter_formula accounts ds ss c0 hc (n + 1),
      cursorAfter_formula accounts ds ss c0 hc n, Nat.mod_add_mod, Nat.add_assoc]
  · have hrot : (List.range accounts.length).map (visitedAt accounts ds ss c0) =
        (accounts.rotate c0).map some := by
      apply List.ext_get
      · simp [List.length_rotate]
      · intro i h1 h2
        have hi : i < accounts.length := by simpa using h1
        rw [List.get_map, List.get_map, List.get_range,
          visitedAt_formula accounts ds ss c0 hc i]
        congr 1
        rw [List.get_rotate]
        congr 1
        simp [Nat.add_comm]
    rw [hrot]
    exact (accounts.rotate_perm c0).map some
  · rw [visitedAt_formula accounts ds ss c0 hc accounts.length,
      visitedAt_formula accounts ds ss c0 hc 0]
    congr 1
    simp [Nat.mod_eq_of_lt hc]

/-- C5 witness: a three-account rotation starting at cursor 1. -/
theorem c5_scheduler_rotation_witness :
    (∀ n, cursorAfter ["a", "b", "c"] (fun _ _ s => s) (fun _ => emptyStore) 1 n < 3) ∧
    (∀ n, cursorAfter ["a", "b", "c"] (fun _ _ s => s) (fun _ => emptyStore) 1 (n + 1) =
      (cursorAfter ["a", "b", "c"] (fun _ _ s => s) (fun _ => emptyStore) 1 n + 1) % 3) ∧
    ((List.range 3).map (visitedAt ["a", "b", "c"] (fun _ _ s => s) (fun _ => emptyStore) 1)).Perm
      (["a", "b", "c"].map some) ∧
    visitedAt ["a", "b", "c"] (fun _ _ s => s) (fun _ => emptyStore) 1 3 =
      visitedAt ["a", "b", "c"] (fun _ _ s => s) (fun _ => emptyStore) 1 0 :=
  c5_scheduler_rotation ["a", "b", "c"] (fun _ _ s => s) (fun _ => emptyStore) 1
    (by decide)

/-! ## Session validation (worker.ts `checkAndInjectCredentials` /
`setupPersistentBrowser`) -/

/-- The stored session credentials (scraper.ts `Credentials`). -/
structure Credentials where
  auth_token : String
  ct0 : String
  bearer_token : String
deriving DecidableEq, Repr

/-- The DOM affordances inspected after navigating to the home surface:
`a[href*="/i/flow/login"]` (login redirect) and `a[href="/i/twitter_blue_sign_up"]`
(subscribe-to-premium). -/
structure PageState where
  hasLoginLink : Bool
  hasSubscribeButton : Bool
deriving DecidableEq, Repr

/-- The three session-validation outcomes: `true`, `false`, and the `'premium'`
sentinel string. -/
inductive SessionCheck
  | valid
  | invalid
  | locked
deriving DecidableEq, Repr

/-- What `setupPersistentBrowser` produced: a usable browser instance, the
`'premium'` sentinel, or `null` (re-entry skip). -/
inductive SetupResult
  | browserReady
  | premiumBlocked
  | skipped
deriving DecidableEq, Repr

/-- Model of `checkAndInjectCredentials` (worker.ts): with no credentials, return false;
any navigation/injection exception is caught into false; otherwise the subscribe
affordance wins (`'premium'`), then the login-redirect affordance (false), and with
neither the session is valid (true). -/
def checkAndInjectCredentials (credentials : Option Credentials) (page : PageState)
    (navError : Bool) : SessionCheck :=
  match credentials with
  | none => .invalid
  | some _ =>
    if navError then .invalid
    else if page.hasSubscribeButton then .locked
    else if page.hasLoginLink then .invalid
    else .valid

/-- The `readCredentials` normalisation in `setupPersistentBrowser`: an empty or
missing `auth_token` clears the credentials to null. -/
def normalizeCredentials (c : Option Credentials) : Option Credentials :=
  match c with
  | some cr => if cr.auth_token = "" then none else some cr
  | none => none

/-- Model of `setupPersistentBrowser` (worker.ts): decline re-entry while a login is in
progress; otherwise validate the stored credentials — a falsy outcome triggers the
full interactive login (`handleLogin`), the `'premium'` sentinel is returned as is
without any login attempt, and a valid session reuses the browser.  The first
component records whether `handleLogin` was invoked. -/
def setupPersistentBrowser (isLoggingIn : Bool) (stored : Option Credentials)
    (page : PageState) (navError : Bool) : Bool × SetupResult :=
  if isLoggingIn then (false, .skipped)
  else
    match checkAndInjectCredentials (normalizeCredentials stored) page navError with
    | .invalid => (true, .browserReady)
    | .locked => (false, .premiumBlocked)
    | .valid => (false, .browserReady)

/-- C4: session validation maps page state to exactly one of three outcomes — a
subscribe-to-premium affordance yields the Locked outcome and the session manager
never attempts interactive login for that cycle; otherwise a login-redirect
affordance yields Invalid; with neither affordance the session is Valid. -/
theorem c4_session_validation (c : Credentials) (page : PageState)
    (hne : c.auth_token ≠ "") :
    (page.hasSubscribeButton = true →
      checkAndInjectCredentials (some c) page false = .locked ∧
      (setupPersistentBrowser false (some c) page false).1 = false ∧
      setupPersistentBrowser false (some c) page false = (false, .premiumBlocked)) ∧
    (page.hasSubscribeButton = false → page.hasLoginLink = true →
      checkAndInjectCredentials (some c) page false = .invalid) ∧
    (page.hasSubscribeButton = false → page.hasLoginLink = false →
      checkAndInjectCredentials (some c) page false = .valid) := by
  refine ⟨?_, ?_, ?_⟩
  · intro hs
    have hchk : checkAndInjectCredentials (some c) page false = .locked := by
      simp [checkAndInjectCredentials, hs]
    refine ⟨hchk, ?_, ?_⟩ <;>
      simp [setupPersistentBrowser, normalizeCredentials, hne, hchk]
  · intro hs hl
    simp [checkAndInjectCredentials, hs, hl]
  · intro hs hl
    simp [checkAndInjectCredentials, hs, hl]

/-- C4 witness: a locked page, a logged-out page and a valid page. -/
theorem c4_session_validation_witness :
    (checkAndInjectCredentials (some ⟨"tok", "ct0", "bearer"⟩)
        ⟨false, true⟩ false = .locked ∧
      (setupPersistentBrowser false (some ⟨"tok", "ct0", "bearer"⟩)
        ⟨false, true⟩ false).1 = false) ∧
    checkAndInjectCredentials (some ⟨"tok", "ct0", "bearer"⟩)
      ⟨true, false⟩ false = .invalid ∧
    checkAndInjectCredentials (some ⟨"tok", "ct0", "bearer"⟩)
      ⟨false, false⟩ false = .valid := by
  have h1 := c4_session_validation ⟨"tok", "ct0", "bearer"⟩ ⟨false, true⟩ (by decide)
  have h2 := c4_session_validation ⟨"tok", "ct0", "bearer"⟩ ⟨true, false⟩ (by decide)
  have h3 := c4_session_validation ⟨"tok", "ct0", "bearer"⟩ ⟨false, false⟩ (by decide)
  exact ⟨⟨(h1.1 rfl).1, (h1.1 rfl).2.1⟩, h2.2.1 rfl rfl, h3.2.2 rfl rfl⟩

/-! ## Category routing and the classifier input guard -/

/-- A concrete classified dto. -/
def exDto : ClassifiedPost :=
  { tweetId := "/user/status/1", username := "user", text := "check CA: 7xKXtgpump",
    timestamp := 100, category := "Contract Alert", tags := ["pump"], contracts := [],
    enriched := [], mediaUrl := none }

/-- C6: a classified post whose category is in the fixed high-priority set is
delivered to the alerts channel and never to general (the only notification
appended is the alerts one); every other non-discarded category is delivered to
general only. -/
theorem c6_category_routing (c id : String) (dto : ClassifiedPost) (s : Store) :
    (c ∈ alertCategories →
      ((routeAndSave c id dto s).1).notifications =
        s.notifications ++ [(Channel.alerts, dto)]) ∧
    (c ∉ alertCategories → c ≠ "not-relevant" →
      ((routeAndSave c id dto s).1).notifications =
        s.notifications ++ [(Channel.general, dto)]) := by
  constructor
  · intro hmem
    have hne : c ≠ "not-relevant" := by
      intro h
      subst h
      revert hmem
      decide
    unfold routeAndSave
    rw [if_neg hne, if_pos hmem]
    simp [saveIA_notifications, notify]
  · intro hmem hne
    unfold routeAndSave
    rw [if_neg hne, if_neg hmem]
    simp [saveIA_notifications, notify]

/-- C6 witness: a high-priority category goes to alerts, a non-priority
non-discarded category goes to general. -/
theorem c6_category_routing_witness :
    ((routeAndSave "Airdrop" "/user/status/1" exDto emptyStore).1).notifications =
      emptyStore.notifications ++ [(Channel.alerts, exDto)] ∧
    ((routeAndSave "Crypto News" "/user/status/1" exDto emptyStore).1).notifications =
      emptyStore.notifications ++ [(Channel.general, exDto)] :=
  ⟨(c6_category_routing "Airdrop" "/user/status/1" exDto emptyStore).1 (by decide),
   (c6_category_routing "Crypto News" "/user/status/1" exDto emptyStore).2
     (by decide) (by decide)⟩

/-- C10: an input whose text is empty and that contributes no usable media part
(no media URL or mime type supplied, or the download yields the empty string)
makes `classifyTweet` return the not-relevant result without invoking the external
AI classification service at all (the invoked flag is false). -/
theorem c10_empty_text_guard (mediaUrl mimeType : Option String)
    (download : String → String) (aiCall : Except AIError Analysis)
    (h : mediaUrl = none ∨ mimeType = none ∨
      (∀ u, mediaUrl = some u → download u = "")) :
    classifyTweet "" mediaUrl mimeType download aiCall = (notRelevantA, false) := by
  rcases h with h | h | h
  · subst h
    cases mimeType <;> simp [classifyTweet]
  · subst h
    cases mediaUrl <;> simp [classifyTweet]
  · cases hm : mediaUrl with
    | none => cases mimeType <;> simp [classifyTweet]
    | some u =>
      cases mimeType with
      | none => simp [classifyTweet]
      | some m => simp [classifyTweet, h u hm]

/-- C10 witness: media URL supplied but the download fails. -/
theorem c10_empty_text_guard_witness :
    classifyTweet "" (some "https://pbs.twimg.com/media/x.jpg") (some "image/jpeg")
      (fun _ => "") (.ok notRelevantA) = (notRelevantA, false) :=
  c10_empty_text_guard (some "https://pbs.twimg.com/media/x.jpg") (some "image/jpeg")
    (fun _ => "") (.ok notRelevantA)
    (Or.inr (Or.inr (by intro u hu; rfl)))

/-! ## Status monotonicity -/

theorem statusIn_append_of_some (ps qs : List RawPost) (x : String) (st : Status)
    (h : statusIn ps x = some st) : statusIn (ps ++ qs) x = some st := by
  unfold statusIn at *
  rw [List.find?_append]
  cases hf : ps.find? (fun p => decide (p.tweetId = x)) with
  | none => rw [hf] at h; simp at h
  | some p => rw [hf] at h; simpa using h

theorem statusIn_setStatus_ne (ps : List RawPost) (id x : String) (st : Status)
    (h : x ≠ id) : statusIn (setStatus ps id st) x = statusIn ps x := by
  unfold statusIn setStatus
  rw [List.find?_map]
  have hpred : ((fun p => decide (p.tweetId = x)) ∘
      (fun p => if p.tweetId = id then { p with status := st } else p)) =
      fun p : RawPost => decide (p.tweetId = x) := by
    funext p
    by_cases hp : p.tweetId = id <;> simp [hp]
  rw [hpred]
  cases hf : ps.find? (fun p => decide (p.tweetId = x)) with
  | none => rfl
  | some q =>
    have hq : q.tweetId = x := by simpa using List.find?_some hf
    have hqid : ¬ q.tweetId = id := by
      rw [hq]
      exact h
    simp [hqid]

theorem statusIn_of_mem_nodup (ps : List RawPost) (p : RawPost)
    (hn : (ps.map RawPost.tweetId).Nodup) (hm : p ∈ ps) :
    statusIn ps p.tweetId = some p.status := by
  induction ps with
  | nil => simp at hm
  | cons q rest ih =>
    simp only [List.map_cons, List.nodup_cons] at hn
    rcases List.mem_cons.mp hm with h | h
    · subst h
      unfold statusIn
      simp [List.find?_cons]
    · have hne : ¬ q.tweetId = p.tweetId := by
        intro he
        exact hn.1 (he ▸ (List.mem_map_of_mem RawPost.tweetId h))
      unfold statusIn at *
      simp [List.find?_cons, hne, ih hn.2 h]

theorem statusIn_saveIA_ne (s : Store) (id : String) (dto : ClassifiedPost)
    (x : String) (h : x ≠ id) :
    statusIn (saveIA s id dto).posts x = statusIn s.posts x := by
  unfold saveIA
  split
  · rfl
  · simpa using statusIn_setStatus_ne s.posts id x .processed h

theorem statusIn_routeAndSave_ne (c id : String) (dto : ClassifiedPost) (s : Store)
    (x : String) (h : x ≠ id) :
    statusIn ((routeAndSave c id dto s).1).posts x = statusIn s.posts x := by
  unfold routeAndSave
  split
  · simpa using statusIn_setStatus_ne s.posts id x .discarded h
  split
  · rw [statusIn_saveIA_ne _ _ _ _ h]
    rfl
  · rw [statusIn_saveIA_ne _ _ _ _ h]
    rfl

theorem statusIn_branchOnOutcome_ne (t : Tweet) (a : Analysis) (o : Oracles)
    (s : Store) (x : String) (h : x ≠ t.url) :
    statusIn (branchOnOutcome t a o s).posts x = statusIn s.posts x := by
  unfold branchOnOutcome
  split
  · exact statusIn_routeAndSave_ne _ _ _ _ _ h
  · simpa using statusIn_setStatus_ne s.posts t.url x .unprocessed h

theorem statusIn_processTweet_preserved (t : Tweet) (o : Oracles) (s : Store)
    (x : String) (st : Status) (hst : statusIn s.posts x = some st) :
    statusIn (processTweet t o s).posts x = some st := by
  by_cases hx : x = t.url
  · have hex : ∃ p ∈ s.posts, p.tweetId = t.url := by
      rw [← hx]
      unfold statusIn at hst
      cases hf : s.posts.find? (fun p => decide (p.tweetId = x)) with
      | none => rw [hf] at hst; simp at hst
      | some p =>
        exact ⟨p, List.mem_of_find?_eq_some hf, by simpa using List.find?_some hf⟩
    rw [processTweet_noop t o s hex]
    exact hst
  · unfold processTweet
    split
    · exact hst
    dsimp only
    split
    · exact statusIn_append_of_some _ _ _ _ hst
    · rw [statusIn_branchOnOutcome_ne _ _ _ _ _ hx]
      exact statusIn_append_of_some _ _ _ _ hst

theorem statusIn_retryPostBatch_preserved (os : Nat → Oracles) (x : String) :
    ∀ (batch : List RawPost), (∀ q ∈ batch, q.tweetId ≠ x) →
    ∀ (k : Nat) (s : Store),
      statusIn (retryPostBatch os batch k s).posts x = statusIn s.posts x := by
  intro batch
  induction batch with
  | nil =>
    intro _ k s
    rfl
  | cons p rest ih =>
    intro hb k s
    have hpx : x ≠ p.tweetId := fun he => (hb p (List.mem_cons_self p rest)) he.symm
    have hbr : ∀ q ∈ rest, q.tweetId ≠ x := fun q hq => hb q (List.mem_cons_of_mem p hq)
    unfold retryPostBatch
    dsimp only
    split <;> (try split) <;> (try split) <;> (try split) <;>
      first
        | exact statusIn_routeAndSave_ne _ _ _ _ _ hpx
        | (rw [ih hbr (k + 1) _]
           exact statusIn_routeAndSave_ne _ _ _ _ _ hpx)
        | exact ih hbr (k + 1) _

/-- C8: once a RawPost's status is `processed` or `discarded`, no operation — a
pipeline invocation or a recovery sweep — ever changes it (in particular never back
to `unprocessed`), and the recovery sweep only ever picks up records still in
status `unprocessed`. -/
theorem c8_status_monotone (op : Op) (s : Store) (x : String) (st : Status)
    (hn : (s.posts.map RawPost.tweetId).Nodup)
    (hst : statusIn s.posts x = some st) (hne : st ≠ .unprocessed) :
    statusIn (stepOp op s).posts x = some st ∧
    (∀ limit, ∀ q ∈ sweepBatch s limit, q.status = .unprocessed) := by
  constructor
  · cases op with
    | proc t o => exact statusIn_processTweet_preserved t o s x st hst
    | sweep limit os =>
      show statusIn (retryFailedAI limit os s).posts x = some st
      unfold retryFailedAI
      have hb : ∀ q ∈ sweepBatch s limit, q.tweetId ≠ x := by
        intro q hq hqx
        unfold sweepBatch at hq
        have hmem := List.mem_of_mem_take hq
        have h1 : q ∈ s.posts := (List.mem_filter.mp hmem).1
        have h2 : q.status = .unprocessed := by
          simpa using (List.mem_filter.mp hmem).2
        have hfind := statusIn_of_mem_nodup s.posts q hn h1
        rw [hqx] at hfind
        have heq : q.status = st := by
          have := hfind.symm.trans hst
          injection this
        exact hne (heq ▸ h2)
      rw [statusIn_retryPostBatch_preserved os x (sweepBatch s limit) hb 0 s]
      exact hst
  · intro limit q hq
    unfold sweepBatch at hq
    have hmem := List.mem_of_mem_take hq
    simpa using (List.mem_filter.mp hmem).2

/-- A store with one already-processed post and one unprocessed post. -/
def exStoreC8 : Store :=
  { posts := [
      { tweetId := "/a/status/1", username := "a", text := "done", timestamp := 0,
        mediaUrl := none, status := .processed, scrapedFor := "feed" },
      { tweetId := "/b/status/2", username := "b", text := "todo", timestamp := 0,
        mediaUrl := none, status := .unprocessed, scrapedFor := "feed" }],
    tweetsIA := [], notifications := [], clock := 0, lastAICallTime := 0,
    aiCallLog := [] }

/-- C8 witness: a recovery sweep over a store with a processed post leaves that
post's status untouched and only fetches unprocessed records. -/
theorem c8_status_monotone_witness :
    statusIn (stepOp (.sweep 5 (fun _ => exOracle)) exStoreC8).posts "/a/status/1" =
      some .processed ∧
    (∀ limit, ∀ q ∈ sweepBatch exStoreC8 limit, q.status = .unprocessed) :=
  c8_status_monotone (.sweep 5 (fun _ => exOracle)) exStoreC8 "/a/status/1" .processed
    (by decide) (by rfl) (by decide)

/-! ## Classification-failure handling (C3) -/

theorem classifyTweet_error_swallowed (text : String) (mediaUrl mimeType : Option String)
    (download : String → String) (e : AIError) :
    (classifyTweet text mediaUrl mimeType download (.error e)).1 = notRelevantA := by
  unfold classifyTweet
  dsimp only
  split
  · rfl
  · rfl

theorem statusIn_setStatus_mem (ps : List RawPost) (id : String) (st : Status)
    (h : ∃ p ∈ ps, p.tweetId = id) : statusIn (setStatus ps id st) id = some st := by
  unfold statusIn setStatus
  rw [List.find?_map]
  have hpred : ((fun p => decide (p.tweetId = id)) ∘
      (fun p => if p.tweetId = id then { p with status := st } else p)) =
      fun p : RawPost => decide (p.tweetId = id) := by
    funext p
    by_cases hp : p.tweetId = id <;> simp [hp]
  rw [hpred]
  rcases h with ⟨q, hq, hqid⟩
  cases hf : ps.find? (fun p => decide (p.tweetId = id)) with
  | none =>
    exfalso
    have := List.find?_eq_none.mp hf q hq
    simp [hqid] at this
  | some r =>
    have hr : r.tweetId = id := by simpa using List.find?_some hf
    simp [hr]

theorem processTweet_notRelevant_outcome (t : Tweet) (o : Oracles) (s : Store)
    (hfresh : ¬ ∃ p ∈ s.posts, p.tweetId = t.url)
    (hto : o.timedOut = false)
    (ha : ∀ text mediaUrl, (classifyTweet text mediaUrl (some "image/jpeg")
      o.download o.aiCall).1 = notRelevantA) :
    statusIn (processTweet t o s).posts t.url = some .discarded ∧
    (processTweet t o s).tweetsIA = s.tweetsIA ∧
    (processTweet t o s).notifications = s.notifications := by
  unfold processTweet
  rw [if_neg hfresh]
  dsimp only
  rw [ha, hto]
  have hretry : (retryWithBackoff (fun _ => .ok notRelevantA) 3 0).1 =
      .ok notRelevantA := rfl
  rw [hretry]
  have hwt : withTimeout false (.ok notRelevantA) errorA = .ok notRelevantA := rfl
  rw [hwt]
  dsimp only
  have hcat : notRelevantA.category = "not-relevant" := rfl
  unfold branchOnOutcome
  rw [hcat, if_pos (show ("not-relevant" : String) ≠ "error" by decide)]
  unfold routeAndSave
  rw [if_pos (rfl : ("not-relevant" : String) = "not-relevant")]
  dsimp only
  refine ⟨?_, rfl, rfl⟩
  apply statusIn_setStatus_mem
  exact ⟨mkRawPost t s.clock, by simp, rfl⟩

/-- Oracle run where the provider call rejects with a non-503 (HTTP 500) error. -/
def exOracleErr : Oracles :=
  { download := fun _ => ""
    aiCall := .error { status := some 500 }
    timedOut := false
    dex := fun _ => none
    elapsed := 0 }

/-- C3 counterexample: at a concrete candidate whose classification call fails
with a non-503 error, the pipeline marks the RawPost `discarded`, not
`unprocessed` as the claim states — the error is swallowed inside classifyTweet
as `not-relevant`, so the post is not left eligible for the recovery sweep. -/
theorem c3_counterexample :
    statusIn (processTweet exTweet exOracleErr emptyStore).posts exTweet.url =
      some .discarded ∧
    ¬ statusIn (processTweet exTweet exOracleErr emptyStore).posts exTweet.url =
      some .unprocessed := by
  constructor
  · rfl
  · decide

/-- C3 (amended): when the classification call fails with an error other than 503,
the call is indeed not retried (`retryWithBackoff` rethrows after a single
attempt), and no ClassifiedPost is created and no notification sent; but the error
is caught inside `classifyTweet` itself and converted to the `not-relevant`
classification (not the sentinel `error`), so the pipeline marks the RawPost
`discarded` — not `unprocessed` — and the post is not eligible for the recovery
sweep.  The sentinel `error` outcome (with the `unprocessed` marking) arises only
from the `withTimeout` fallback. -/
theorem c3_error_not_retried_discarded (t : Tweet) (o : Oracles) (s : Store)
    (e : AIError) (hfresh : ¬ ∃ p ∈ s.posts, p.tweetId = t.url)
    (herr : o.aiCall = .error e) (h503 : e.status ≠ some 503)
    (hto : o.timedOut = false) :
    (∀ fn : Nat → Except AIError Analysis, fn 0 = .error e →
      retryWithBackoff fn 3 0 = (.error e, 1)) ∧
    statusIn (processTweet t o s).posts t.url = some .discarded ∧
    (processTweet t o s).tweetsIA = s.tweetsIA ∧
    (processTweet t o s).notifications = s.notifications := by
  constructor
  · intro fn h0
    simp [retryWithBackoff, h0, h503]
  · refine processTweet_notRelevant_outcome t o s hfresh hto ?_
    intro text mediaUrl
    rw [herr]
    exact classifyTweet_error_swallowed text mediaUrl (some "image/jpeg") o.download e

/-- C3 witness: the amended theorem applied at the concrete failing run. -/
theorem c3_error_not_retried_discarded_witness :
    statusIn (processTweet exTweet exOracleErr emptyStore).posts exTweet.url =
      some .discarded ∧
    (processTweet exTweet exOracleErr emptyStore).tweetsIA = emptyStore.tweetsIA ∧
    (processTweet exTweet exOracleErr emptyStore).notifications =
      emptyStore.notifications :=
  (c3_error_not_retried_discarded exTweet exOracleErr emptyStore
    { status := some 500 } (by simp [emptyStore]) rfl (by decide) rfl).2

/-! ## Rate-limit spacing (C2) -/

/-- The gate's invariant: the logged classification-call times are spaced by at
least the configured interval, and none exceeds the recorded `lastAICallTime`. -/
def gateInv (s : Store) : Prop :=
  spacedBy AI_CALL_INTERVAL s.aiCallLog ∧ ∀ x ∈ s.aiCallLog, x ≤ s.lastAICallTime

theorem gateInv_update (s : Store) (h : gateInv s) (c : Nat)
    (hc : s.lastAICallTime + AI_CALL_INTERVAL ≤ c) (b : Bool) (cl : Nat) :
    gateInv { s with
      clock := cl
      lastAICallTime := c
      aiCallLog := if b then s.aiCallLog ++ [c] else s.aiCallLog } := by
  obtain ⟨h1, h2⟩ := h
  cases b
  · refine ⟨h1, ?_⟩
    intro x hx
    simp only [Bool.false_eq_true, if_false] at hx
    exact le_trans (h2 x hx) (le_trans (Nat.le_add_right _ _) hc)
  · constructor
    · unfold spacedBy at *
      simp only [if_true]
      rw [List.chain'_append]
      refine ⟨h1, List.chain'_singleton _, ?_⟩
      intro y hy z hz
      simp only [List.head?_cons, Option.mem_def, Option.some.injEq] at hz
      subst hz
      have hy' : y ∈ s.aiCallLog := by
        rcases List.mem_getLast?_eq_getLast hy with ⟨hne, rfl⟩
        exact List.getLast_mem hne
      exact le_trans (Nat.add_le_add_right (h2 y hy') _) hc
    · intro x hx
      simp only [if_true] at hx
      rcases List.mem_append.mp hx with hx | hx
      · exact le_trans (h2 x hx) (le_trans (Nat.le_add_right _ _) hc)
      · simp only [List.mem_singleton] at hx
        subst hx
        exact le_refl _

theorem processTweet_gateInv (t : Tweet) (o : Oracles) (s : Store) (h : gateInv s) :
    gateInv (processTweet t o s) := by
  unfold processTweet
  split
  · exact h
  dsimp only
  have hs1 : gateInv { s with posts := s.posts ++ [mkRawPost t s.clock] } := h
  have hs2 := gateInv_update { s with posts := s.posts ++ [mkRawPost t s.clock] } hs1
    (max s.clock (s.lastAICallTime + AI_CALL_INTERVAL))
    (le_max_right _ _)
    (classifyTweet (mkRawPost t s.clock).text (mkRawPost t s.clock).mediaUrl
      (some "image/jpeg") o.download o.aiCall).2
    (max s.clock (s.lastAICallTime + AI_CALL_INTERVAL) + o.elapsed)
  split
  · exact hs2
  · constructor
    · unfold gateInv at hs2
      rw [spacedBy, branchOnOutcome_aiCallLog]
      exact hs2.1
    · intro x hx
      rw [branchOnOutcome_aiCallLog] at hx
      rw [branchOnOutcome_lastAICallTime]
      exact hs2.2 x hx

theorem runPipeline_gateInv (items : List (Tweet × Oracles)) (s : Store)
    (h : gateInv s) : gateInv (runPipeline items s) := by
  induction items generalizing s with
  | nil => exact h
  | cons it rest ih => exact ih (processTweet it.1 it.2 s) (processTweet_gateInv it.1 it.2 s h)

/-- C2 (amended): classification calls issued through the tweet-processing
pipeline's rate gate are spaced at least `AI_CALL_INTERVAL` (6000 ms) apart: for
sequential pipeline invocations starting from a store with an empty call trace,
the logged call times form a chain with gaps of at least 6000 ms.  (The global
form of the claim fails: the failure-recovery sweep bypasses both the limiter and
the gate — see the counterexample.) -/
theorem c2_pipeline_spacing (items : List (Tweet × Oracles)) (s : Store)
    (hlog : s.aiCallLog = []) :
    spacedBy AI_CALL_INTERVAL (runPipeline items s).aiCallLog := by
  have h0 : gateInv s := by
    constructor
    · rw [hlog]
      exact List.chain'_nil
    · rw [hlog]
      intro x hx
      simp at hx
  exact (runPipeline_gateInv items s h0).1

/-- A second feed candidate. -/
def exTweet2 : Tweet :=
  { url := "/user/status/2", username := "user", text := "new listing incoming",
    timestamp := some 200, mediaUrl := none, scrapedFor := none }

/-- C2 witness: two sequential pipeline invocations from an empty store produce a
call trace spaced by at least 6000 ms. -/
theorem c2_pipeline_spacing_witness :
    spacedBy AI_CALL_INTERVAL
      (runPipeline [(exTweet, exOracle), (exTweet2, exOracle)] emptyStore).aiCallLog :=
  c2_pipeline_spacing [(exTweet, exOracle), (exTweet2, exOracle)] emptyStore rfl

/-- Two raw posts stuck in `unprocessed` status. -/
def pendingPost1 : RawPost :=
  { tweetId := "/a/status/1", username := "a", text := "gm", timestamp := 0,
    mediaUrl := none, status := .unprocessed, scrapedFor := "feed" }

/-- A second stuck raw post. -/
def pendingPost2 : RawPost :=
  { tweetId := "/b/status/2", username := "b", text := "wagmi", timestamp := 0,
    mediaUrl := none, status := .unprocessed, scrapedFor := "feed" }

/-- A store holding the two stuck posts, clock at 0. -/
def c2Store : Store :=
  { posts := [pendingPost1, pendingPost2], tweetsIA := [], notifications := [],
    clock := 0, lastAICallTime := 0, aiCallLog := [] }

/-- Recovery-sweep oracles: each classification succeeds as Crypto News after
100 ms, with no timeout and no dex data. -/
def c2Oracles : Nat → Oracles := fun _ =>
  { download := fun _ => ""
    aiCall := .ok { category := "Crypto News", tags := [], contracts := [] }
    timedOut := false
    dex := fun _ => none
    elapsed := 100 }

/-- C2 counterexample: the failure-recovery sweep performs two consecutive
classification calls only 100 ms apart (at times 0 and 100), bypassing both the
concurrency limiter and the 6000 ms spacing gate, so the process-wide spacing
claim fails. -/
theorem c2_counterexample :
    (retryFailedAI 5 c2Oracles c2Store).aiCallLog = [0, 100] ∧
    ¬ spacedBy AI_CALL_INTERVAL (retryFailedAI 5 c2Oracles c2Store).aiCallLog := by
  have h : (retryFailedAI 5 c2Oracles c2Store).aiCallLog = [0, 100] := by rfl
  refine ⟨h, ?_⟩
  rw [h]
  intro hsp
  have h1 := (List.chain'_cons.mp hsp).1
  norm_num [AI_CALL_INTERVAL] at h1

/-! ## The recovery sweep's early return (C7) -/

/-- Per-post sweep oracles: the first pending post classifies as not-relevant,
any later one as Crypto News. -/
def c7Oracles : Nat → Oracles := fun k =>
  { download := fun _ => ""
    aiCall := .ok (if k = 0 then notRelevantA
                   else { category := "Crypto News", tags := [], contracts := [] })
    timedOut := false
    dex := fun _ => none
    elapsed := 0 }

/-- C7 (bug evidence): with two unprocessed posts fetched into the batch and the
first classified not-relevant, the sweep's `return` statement (instead of a
`continue`) exits `retryFailedAI` after discarding the first post: only one
classification call is made and the second fetched post is skipped — it stays
`unprocessed` — contradicting the claim that every post in the fetched batch is
re-run. -/
theorem c7_sweep_early_return :
    sweepBatch c2Store 5 = [pendingPost1, pendingPost2] ∧
    statusIn (retryFailedAI 5 c7Oracles c2Store).posts pendingPost1.tweetId =
      some .discarded ∧
    statusIn (retryFailedAI 5 c7Oracles c2Store).posts pendingPost2.tweetId =
      some .unprocessed ∧
    (retryFailedAI 5 c7Oracles c2Store).aiCallLog.length = 1 :=
  ⟨rfl, rfl, rfl, rfl⟩

/-! ## The embed's enrichment arithmetic (C9) -/

/-- JS `x || d` over an optional numeric field: yields `d` when the field is
absent or zero (falsy), the raw value otherwise. -/
def jsOr (x : Option ℚ) (d : ℚ) : ℚ :=
  match x with
  | none => d
  | some v => if v = 0 then d else v

/-- The number interpolated for liquidity in `createDiscordEmbed`
(discordService.ts): `enrichedData?.liquidity || 0 / 1000000` — the division binds
tighter than `||`, so the default is `0 / 1000000` and a present value is never
divided. -/
def liquidityShown (e : EnrichedData) : ℚ := jsOr e.liquidity (0 / 1000000)

/-- The embed expression `enrichedData?.volume24h || 0 / 1000000`. -/
def volume24hShown (e : EnrichedData) : ℚ := jsOr e.volume24h (0 / 1000000)

/-- The embed expression `enrichedData.fdv || 0 / 1000000`. -/
def fdvShown (e : EnrichedData) : ℚ := jsOr e.fdv (0 / 1000000)

/-- JS `Number.prototype.toFixed(2)` on the exact rationals rendered here: round
the magnitude to the nearest hundredth (halves away from zero: the floor of
`|q|*100 + 1/2`, computed on the reduced numerator/denominator) and print two
fractional digits. -/
def toFixed2 (q : ℚ) : String :=
  let n : Nat := (2 * q.num.natAbs * 100 + q.den) / (2 * q.den)
  let frac := n % 100
  (if q < 0 then "-" else "") ++ toString (n / 100) ++ "." ++
    (if frac < 10 then "0" ++ toString frac else toString frac)

/-- The `$…M` money fragment of the embed's enriched field. -/
def moneyLine (q : ℚ) : String := "$" ++ toFixed2 q ++ "M"

/-- C9: in every embed built for an enriched contract, liquidity, 24h volume and
FDV are computed as `value || (0 / 1e6)`, not `(value || 0) / 1e6`: a present
non-zero value is rendered raw and undivided (with two decimals and an `M`
suffix via `moneyLine`), an absent or zero field renders `$0.00M`, and the
division by 1,000,000 never applies to a present value (the two readings differ). -/
theorem c9_embed_division_misplaced (e : EnrichedData) :
    (∀ v : ℚ, e.liquidity = some v → v ≠ 0 → liquidityShown e = v) ∧
    ((e.liquidity = none ∨ e.liquidity = some 0) →
      moneyLine (liquidityShown e) = "$0.00M") ∧
    (∀ v : ℚ, e.volume24h = some v → v ≠ 0 → volume24hShown e = v) ∧
    ((e.volume24h = none ∨ e.volume24h = some 0) →
      moneyLine (volume24hShown e) = "$0.00M") ∧
    (∀ v : ℚ, e.fdv = some v → v ≠ 0 → fdvShown e = v) ∧
    ((e.fdv = none ∨ e.fdv = some 0) → moneyLine (fdvShown e) = "$0.00M") ∧
    (∃ v : ℚ, v ≠ 0 ∧ jsOr (some v) (0 / 1000000) ≠ (jsOr (some v) 0) / 1000000) := by
  have hzero : moneyLine (0 : ℚ) = "$0.00M" := by decide
  have hval : ∀ (x : Option ℚ) (v : ℚ), x = some v → v ≠ 0 →
      jsOr x (0 / 1000000) = v := by
    intro x v hx hv
    subst hx
    simp [jsOr, hv]
  have habs : ∀ x : Option ℚ, (x = none ∨ x = some 0) →
      jsOr x (0 / 1000000) = 0 := by
    intro x hx
    rcases hx with rfl | rfl
    · simp [jsOr]
    · simp [jsOr]
  refine ⟨fun v hx hv => hval _ v hx hv,
          fun hx => by rw [liquidityShown, habs _ hx]; exact hzero,
          fun v hx hv => hval _ v hx hv,
          fun hx => by rw [volume24hShown, habs _ hx]; exact hzero,
          fun v hx hv => hval _ v hx hv,
          fun hx => by rw [fdvShown, habs _ hx]; exact hzero,
          ⟨1, by norm_num, by norm_num [jsOr]⟩⟩

/-- A concrete enriched contract with present liquidity and FDV, no volume. -/
def exEnriched : EnrichedData :=
  { address := "7xKXtgpump", tokenSymbol := some "PUMP", priceUsd := some (1 / 100),
    fdv := some 2500000, liquidity := some 150000, volume24h := none,
    blockchain := some "solana" }

/-- C9 witness: present liquidity/FDV render raw and undivided; absent volume
renders $0.00M. -/
theorem c9_embed_division_misplaced_witness :
    liquidityShown exEnriched = 150000 ∧
    fdvShown exEnriched = 2500000 ∧
    moneyLine (volume24hShown exEnriched) = "$0.00M" := by
  have h := c9_embed_division_misplaced exEnriched
  exact ⟨h.1 150000 rfl (by norm_num),
         h.2.2.2.2.1 2500000 rfl (by norm_num),
         h.2.2.2.1 (Or.inl rfl)⟩
